import Mathlib

/-!
Verification of the time-travel-debugger runtime against its specification.

Part 1 embeds the JavaScript runtime bridge (`src/runtime/runtime.js`):
the `timeDebugger` API, in particular `captureVariable` and
`captureFunction` with the wrapper it returns.  The wrapper's observable
behaviour is the ordered list of host-op invocations it performs (the
event stream) together with its outcome (return / throw).

Part 2 models, from the specification, the Rust-side core that is not
part of the repository's JavaScript sources: the value serializer with
cycle detection, the bounded timeline store, the navigator, and the
snapshot-info projection.
-/

/-- A JavaScript value, restricted to the fragment the runtime-bridge
claims exercise: the primitives plus an opaque object reference.
Numbers are modelled as integers (none of the verified claims depends on
float specials). -/
inductive JSValue where
  | undefinedV
  | null
  | bool (b : Bool)
  | num (n : Int)
  | str (s : String)
  | obj (id : Nat)
deriving DecidableEq, Repr

/-- JavaScript truthiness of a value, as used by `if (error)`. -/
def JSValue.truthy : JSValue → Bool
  | .undefinedV => false
  | .null => false
  | .bool b => b
  | .num n => n != 0
  | .str s => s != ""
  | .obj _ => true

/-- `v.toString()`: `none` when the call itself throws a TypeError
(`null` and `undefined` have no `toString`). -/
def JSValue.toStringOpt : JSValue → Option String
  | .undefinedV => none
  | .null => none
  | .bool b => some (if b then "true" else "false")
  | .num n => some (toString n)
  | .str s => some s
  | .obj _ => some "[object Object]"

/-- One host-op invocation performed by the `timeDebugger` bridge:
`op_function_entry`, `op_capture_scope`, `op_capture_variable`,
`op_function_exit`. -/
inductive Event where
  | entry (name : String)
  | scopeCapture (functionName : String) (snapshotType : String)
      (vars : List (String × JSValue))
  | varCapture (name : String) (value : JSValue)
  | exit (name : String) (durationUs : Int)
deriving DecidableEq, Repr

/-- Outcome of invoking a guest function: normal return or throw. -/
inductive JSOutcome where
  | ret (v : JSValue)
  | thr (v : JSValue)
deriving DecidableEq, Repr

/-- A guest function: receives the `this` binding and the argument list. -/
abbrev GuestFn := JSValue → List JSValue → JSOutcome

/-- Outcome of invoking the wrapper returned by `captureFunction`.
`hostTypeError` is the TypeError raised by `e.toString()` inside the
wrapper's catch block when the thrown value is `null` or `undefined`;
it escapes the wrapper in place of the original exception. -/
inductive WrapperResult where
  | ret (v : JSValue)
  | thr (v : JSValue)
  | hostTypeError
deriving DecidableEq, Repr

/-- `timeDebugger.captureVariable(name, value)` from `runtime.js`: calls
`op_capture_variable` inside `try`, returning `null` if the op throws. -/
def captureVariable (op : String → JSValue → Except JSValue JSValue)
    (name : String) (value : JSValue) : JSValue :=
  match op name value with
  | .ok r => r
  | .error _ => JSValue.null

/-- The argument scope built by the wrapper: `{arg0: .., arg1: ..}`. -/
def argScope (args : List JSValue) : List (String × JSValue) :=
  args.enum.map (fun p => ("arg" ++ toString p.1, p.2))

/-- The wrapper closure returned by `captureFunction`, from
`runtime.js` lines 75–111.  `t0` and `t1` are the host timestamps
returned by the two `getTimestamp()` calls.  Returns the event stream
(the host-op invocations, in order) and the wrapper's outcome. -/
def wrapper (fn : GuestFn) (functionName : String) (t0 t1 : Int)
    (thisV : JSValue) (args : List JSValue) : List Event × WrapperResult :=
  let pre : List Event :=
    [.entry functionName, .scopeCapture functionName "entry" (argScope args)]
  match fn thisV args with
  | .ret v =>
      let mid : List Event := if v = .undefinedV then [] else [.varCapture "return" v]
      (pre ++ mid ++ [.exit functionName ((t1 - t0) * 1000)], .ret v)
  | .thr e =>
      match e.toStringOpt with
      | none => (pre, .hostTypeError)
      | some s =>
          (pre ++ [.varCapture "error" (.str s)]
               ++ [.exit functionName ((t1 - t0) * 1000)],
           if e.truthy then .thr e else .ret .undefinedV)

/-- First argument of `captureFunction`: a guest function (with its
`fn.name`) or a non-function value. -/
inductive CFInput where
  | func (f : GuestFn) (fname : String)
  | nonFunc (v : JSValue)

/-- `name || fn.name || 'anonymous'` — the empty string and an absent
`name` argument are falsy. -/
def resolveName (name : Option String) (fnName : String) : String :=
  let n1 := match name with | some s => s | none => ""
  if n1 ≠ "" then n1 else if fnName ≠ "" then fnName else "anonymous"

/-- `timeDebugger.captureFunction(fn, name)` from `runtime.js`: the
events it emits during the call itself, and its result — an `Error`
with a fixed message for a non-function argument, or the wrapper
(represented by its resolved name and the wrapped function). -/
def captureFunction (input : CFInput) (name : Option String) :
    List Event × Except String (String × GuestFn) :=
  match input with
  | .nonFunc _ => ([], .error "First argument must be a function")
  | .func f fname => ([], .ok (resolveName name fname, f))

/-- Number of `entry` events in a stream. -/
def countEntries (evs : List Event) : Nat :=
  evs.countP (fun e => match e with | .entry _ => true | _ => false)

/-- Number of `exit` events in a stream. -/
def countExits (evs : List Event) : Nat :=
  evs.countP (fun e => match e with | .exit _ _ => true | _ => false)

/-- Whether an event is a `varCapture`. -/
def Event.isVarCapture : Event → Bool
  | .varCapture _ _ => true
  | _ => false

/-! ## Part 2: the value serializer (spec §4.1) and restorer (spec §4.5) -/

/-- Modelled from the spec: the `GuestValue` tagged variant (§3),
restricted to the primitive/Object fragment that the heap model below
can produce (the spec's full variant additionally lists BigInteger,
Symbol, Array, Function and Date, none of which the verified claims
exercise).  `circularRef` carries the per-pass reference id of an
already-visited object; `unserializable` carries a human-readable
reason. -/
inductive GuestValue where
  | undefined
  | null
  | boolean (b : Bool)
  | number (n : Int)
  | string (s : String)
  | object (fields : List (String × GuestValue))
  | circularRef (refId : Nat)
  | unserializable (reason : String)

/-- A primitive guest-heap value. -/
inductive GPrim where
  | undefinedV
  | null
  | bool (b : Bool)
  | num (n : Int)
  | str (s : String)
deriving DecidableEq, Repr

/-- A guest-heap reference: a primitive or a pointer to a heap object. -/
inductive GRef where
  | prim (p : GPrim)
  | ptr (addr : Nat)
deriving DecidableEq, Repr

/-- The guest heap: an association of addresses to objects, each object
an ordered field list.  Cyclic graphs arise from pointers back to
earlier addresses. -/
structure Heap where
  objs : List (Nat × List (String × GRef))
deriving DecidableEq, Repr

/-- Serialization of a primitive. -/
def GPrim.toGuestValue : GPrim → GuestValue
  | .undefinedV => .undefined
  | .null => .null
  | .bool b => .boolean b
  | .num n => .number n
  | .str s => .string s

/-- Modelled from the spec (§4.1): the serializer over a guest heap.
Maintains the set of already-visited heap identities for the current
pass as an association `address ↦ per-pass reference id`, ids assigned
in first-visit order; on re-visit it emits `CircularRef(id)` instead of
recursing.  An object's fields are serialized left to right, threading
the visited set.  `fuel` is the remaining `max_depth`; exhausting it
yields `Unserializable("max depth exceeded")`.  A dangling pointer
yields `Unserializable` with a reason (failure policy: serialization
never raises). -/
def serializeS (h : Heap) : Nat → List (Nat × Nat) → GRef →
    GuestValue × List (Nat × Nat)
  | 0, vis, _ => (.unserializable "max depth exceeded", vis)
  | _ + 1, vis, .prim p => (p.toGuestValue, vis)
  | fuel + 1, vis, .ptr a =>
    match vis.lookup a with
    | some refId => (.circularRef refId, vis)
    | none =>
      match h.objs.lookup a with
      | none => (.unserializable "unsupported native handle", vis)
      | some fields =>
          let r := List.foldl
            (fun (acc : List (String × GuestValue) × List (Nat × Nat)) kv =>
              let r1 := serializeS h fuel acc.2 kv.2
              (acc.1 ++ [(kv.1, r1.1)], r1.2))
            ([], vis ++ [(a, vis.length)]) fields
          (.object r.1, r.2)

/-- Modelled from the spec (§4.1): `serialize(root, config)`, with
`config.max_depth` as the fuel and a fresh visited set per pass. -/
def serialize (h : Heap) (root : GRef) (maxDepth : Nat) : GuestValue :=
  (serializeS h maxDepth [] root).1

mutual
/-- Number of `CircularRef` nodes in a serialized value. -/
def countCircular : GuestValue → Nat
  | .object fs => countCircularFields fs
  | .circularRef _ => 1
  | _ => 0

/-- Number of `CircularRef` nodes in a field list. -/
def countCircularFields : List (String × GuestValue) → Nat
  | [] => 0
  | (_, v) :: rest => countCircular v + countCircularFields rest
end

mutual
/-- Modelled from the spec (§4.5): restoration of a `GuestValue` into a
fresh guest heap by the two-pass placeholder scheme — every object node
receives a placeholder address equal to its per-pass reference id (its
first-visit ordinal), and `CircularRef(id)` resolves against that
placeholder table, i.e. to address `id`.  `Unserializable` nodes restore
as guest `undefined` (graceful degradation).  Returns the reference for
the node, the next free ordinal, and the heap allocations produced. -/
def restoreGV : GuestValue → Nat →
    GRef × Nat × List (Nat × List (String × GRef))
  | .undefined, n => (.prim .undefinedV, n, [])
  | .null, n => (.prim .null, n, [])
  | .boolean b, n => (.prim (.bool b), n, [])
  | .number m, n => (.prim (.num m), n, [])
  | .string s, n => (.prim (.str s), n, [])
  | .unserializable _, n => (.prim .undefinedV, n, [])
  | .circularRef refId, n => (.ptr refId, n, [])
  | .object fs, n =>
      let a := n
      let r := restoreFieldsGV fs (n + 1)
      (.ptr a, r.2.1, (a, r.1) :: r.2.2)

/-- Restores a field list left to right, threading the ordinal counter
and collecting allocations. -/
def restoreFieldsGV : List (String × GuestValue) → Nat →
    List (String × GRef) × Nat × List (Nat × List (String × GRef))
  | [], n => ([], n, [])
  | (k, v) :: rest, n =>
      let r1 := restoreGV v n
      let r2 := restoreFieldsGV rest r1.2.1
      ((k, r1.1) :: r2.1, r2.2.1, r1.2.2 ++ r2.2.2)
end

/-- Restores a serialized value into a fresh heap (addresses start at
0): the root reference and the reconstructed heap. -/
def restore (v : GuestValue) : GRef × Heap :=
  let r := restoreGV v 0
  (r.1, ⟨r.2.2⟩)

/-! ## Part 3: the timeline store (spec §3, §4.3), navigator (§4.4) and
snapshot-info projection (§6) -/

/-- Modelled from the spec (§3): the snapshot `kind`. -/
inductive SnapshotKind where
  | functionEntry
  | functionExit
  | variableCapture
  | scopeCapture
  | customContext
deriving DecidableEq, Repr

/-- Modelled from the spec (§4.2): the caller-supplied part of a
snapshot — everything except the id, which the builder assigns.  `vars`
is the spec's `variables` mapping (`variables` is reserved in Lean). -/
structure SnapshotData where
  timestamp : Int
  kind : SnapshotKind
  functionName : String
  callDepth : Nat
  vars : List (String × GuestValue)
  duration : Option Int

/-- Modelled from the spec (§3): a `Snapshot`, identified by its
monotonic `SnapshotId`, immutable once built. -/
structure Snapshot where
  id : Nat
  timestamp : Int
  kind : SnapshotKind
  functionName : String
  callDepth : Nat
  vars : List (String × GuestValue)
  duration : Option Int

/-- The snapshot builder's assembly step: attaches the next id. -/
def mkSnapshot (id : Nat) (d : SnapshotData) : Snapshot :=
  ⟨id, d.timestamp, d.kind, d.functionName, d.callDepth, d.vars,
   d.duration⟩

/-- Navigation / lookup failures (spec §7): all recoverable. -/
inductive NavError where
  | AtStart
  | AtEnd
  | NotFound
  | EmptyTimeline
deriving DecidableEq, Repr

/-- Modelled from the spec (§3): the `Timeline` — an ordered sequence of
snapshots (insertion order = id order), a capacity bound, the session's
monotonic id counter, and a cursor (an index, or none when
unpositioned). -/
structure Timeline where
  snapshots : List Snapshot
  capacity : Nat
  nextId : Nat
  cursor : Option Nat

/-- A fresh timeline for a new debugging session. -/
def Timeline.new (cap : Nat) : Timeline :=
  ⟨[], cap, 0, none⟩

/-- Modelled from the spec (§4.3): `append(snapshot) -> SnapshotId`.
Assigns the next id from the session counter; insertion past capacity
evicts the oldest snapshot, and a cursor pointing at the evicted
snapshot is clamped to the new oldest index (indices of survivors shift
down by one). -/
def Timeline.append (t : Timeline) (d : SnapshotData) : Timeline × Nat :=
  if (t.snapshots ++ [mkSnapshot t.nextId d]).length > t.capacity then
    (⟨(t.snapshots ++ [mkSnapshot t.nextId d]).tail, t.capacity,
      t.nextId + 1, t.cursor.map (fun c => c - 1)⟩, t.nextId)
  else
    (⟨t.snapshots ++ [mkSnapshot t.nextId d], t.capacity, t.nextId + 1,
      t.cursor⟩, t.nextId)

/-- A sequence of `append` calls, collecting the returned ids. -/
def Timeline.appendAll (t : Timeline) (ds : List SnapshotData) :
    Timeline × List Nat :=
  match ds with
  | [] => (t, [])
  | d :: rest =>
      let r1 := t.append d
      let r2 := r1.1.appendAll rest
      (r2.1, r1.2 :: r2.2)

/-- Modelled from the spec (§4.3): `get(id)` — `NotFound` when the id
was evicted or never existed. -/
def Timeline.get (t : Timeline) (id : Nat) : Except NavError Snapshot :=
  match t.snapshots.find? (fun s => s.id == id) with
  | some s => .ok s
  | none => .error .NotFound

/-- Modelled from the spec (§4.4): `step_forward()` — cursor to the next
higher index; `AtEnd` at the last snapshot, or when unpositioned with an
empty timeline.  When unpositioned over a non-empty timeline the cursor
moves to the first snapshot (the spec fixes only the empty case). -/
def Timeline.stepForward (t : Timeline) : Except NavError Timeline :=
  match t.cursor with
  | none =>
      if t.snapshots.isEmpty then .error .AtEnd
      else .ok ⟨t.snapshots, t.capacity, t.nextId, some 0⟩
  | some c =>
      if c + 1 < t.snapshots.length then
        .ok ⟨t.snapshots, t.capacity, t.nextId, some (c + 1)⟩
      else .error .AtEnd

/-- Modelled from the spec (§4.4): `step_backward()` — cursor to the
next lower index; `AtStart` at index 0 (and when unpositioned, where
there is no lower index). -/
def Timeline.stepBackward (t : Timeline) : Except NavError Timeline :=
  match t.cursor with
  | none => .error .AtStart
  | some c =>
      if c = 0 then .error .AtStart
      else .ok ⟨t.snapshots, t.capacity, t.nextId, some (c - 1)⟩

/-- `step_forward()` then `step_backward()`. -/
def Timeline.stepRoundTrip (t : Timeline) : Except NavError Timeline :=
  match t.stepForward with
  | .ok t1 => t1.stepBackward
  | .error e => .error e

/-- The id of the snapshot under the cursor, if positioned. -/
def Timeline.cursorId (t : Timeline) : Option Nat :=
  match t.cursor with
  | none => none
  | some c => (t.snapshots.get? c).map Snapshot.id

/-- Modelled from the spec (§6): one recent-snapshot summary,
`{id, function, kind, variable_count}`. -/
structure SnapshotSummary where
  id : Nat
  function : String
  kind : SnapshotKind
  variable_count : Nat
deriving DecidableEq, Repr

/-- The summary of one snapshot. -/
def summarize (s : Snapshot) : SnapshotSummary :=
  ⟨s.id, s.functionName, s.kind, s.vars.length⟩

/-- Modelled from the spec (§6): the timeline statistics record exposed
to collaborators, `{total_snapshots, function_calls, current_function,
call_depth}` plus the list of recent snapshot summaries. -/
structure SnapshotInfo where
  total_snapshots : Nat
  function_calls : Nat
  current_function : Option String
  call_depth : Nat
  snapshots : List SnapshotSummary
deriving DecidableEq, Repr

/-- Modelled from the spec (§6, §4.3): the snapshot-info projection.
`function_calls` counts function-entry snapshots; `current_function` is
the cursor snapshot's function name; `call_depth` is the depth of the
most recent snapshot (0 on an empty timeline); the summary list covers
the `recent` most recent snapshots, in insertion order. -/
def getSnapshotInfo (t : Timeline) (recent : Nat) : SnapshotInfo :=
  { total_snapshots := t.snapshots.length
    function_calls :=
      t.snapshots.countP (fun s => s.kind == SnapshotKind.functionEntry)
    current_function :=
      (t.cursor.bind (fun c => t.snapshots.get? c)).map Snapshot.functionName
    call_depth := (t.snapshots.getLast?.map Snapshot.callDepth).getD 0
    snapshots :=
      (t.snapshots.drop (t.snapshots.length - recent)).map summarize }

/-! ## Theorems: the runtime bridge (C1, C2, C3, C9, C10) -/

/-- A guest function that throws the falsy value `false`. -/
def throwFalse : GuestFn := fun _ _ => .thr (.bool false)

/-- A guest function that throws `null`. -/
def throwNull : GuestFn := fun _ _ => .thr .null

/-- A guest function that returns `undefined`. -/
def returnsUndefined : GuestFn := fun _ _ => .ret .undefinedV

/-- A guest function that returns the number 5. -/
def retFive : GuestFn := fun _ _ => .ret (.num 5)

/-- C1: the wrapper is not transparent for thrown falsy values.  A
wrapped function that throws `false` is caught, the error is captured
and the exit recorded, but `if (error)` is falsy so the wrapper returns
`undefined` instead of rethrowing — the guest's forward behaviour is
altered. -/
theorem wrapper_swallows_falsy_throw :
    wrapper throwFalse "f" 0 0 .undefinedV []
      = ([.entry "f", .scopeCapture "f" "entry" [],
          .varCapture "error" (.str "false"), .exit "f" 0],
         .ret .undefinedV) := rfl

/-- C2: `captureVariable` never propagates an exception to the guest:
if the underlying capture op raises, it returns `null`; otherwise it
returns the op's result. -/
theorem captureVariable_contains_failure
    (op : String → JSValue → Except JSValue JSValue)
    (name : String) (value : JSValue) :
    (∀ e, op name value = .error e →
      captureVariable op name value = JSValue.null)
    ∧ (∀ r, op name value = .ok r → captureVariable op name value = r) := by
  constructor
  · intro e he
    simp [captureVariable, he]
  · intro r hr
    simp [captureVariable, hr]

/-- Witness for C2 at concrete ops: a raising op yields `null`, a
successful op's result is passed through. -/
theorem captureVariable_contains_failure_witness :
    captureVariable (fun _ _ => Except.error (JSValue.str "boom")) "x" .undefinedV
      = JSValue.null
    ∧ captureVariable (fun _ v => Except.ok v) "x" (.num 3) = JSValue.num 3 :=
  ⟨(captureVariable_contains_failure _ "x" .undefinedV).1 _ rfl,
   (captureVariable_contains_failure _ "x" (.num 3)).2 _ rfl⟩

/-- C3 counterexample: a wrapped call whose function returns `undefined`
emits no variable capture at all — in particular no `"return"` capture —
because of the `result !== undefined` guard. -/
theorem wrapper_undef_return_records_nothing :
    (wrapper returnsUndefined "h" 0 0 .undefinedV [.num 1]).1.filter Event.isVarCapture = []
    ∧ (wrapper returnsUndefined "h" 0 0 .undefinedV [.num 1]).2 = .ret .undefinedV :=
  ⟨rfl, rfl⟩

/-- C3 (amended): each wrapper call emits the entry op and a scope
capture holding the positional argument bindings; at exit it captures
`"return"` exactly when the result is not `undefined`, or `"error"`
(the thrown value's string form) when the call threw a stringifiable
value, and the exit op carries the duration. -/
theorem wrapper_captures (f : GuestFn) (nm : String) (t0 t1 : Int)
    (thisV : JSValue) (args : List JSValue) :
    (wrapper f nm t0 t1 thisV args).1.take 2
        = [.entry nm, .scopeCapture nm "entry" (argScope args)]
    ∧ (∀ v, f thisV args = .ret v → v ≠ .undefinedV →
        (wrapper f nm t0 t1 thisV args).1
          = [.entry nm, .scopeCapture nm "entry" (argScope args),
             .varCapture "return" v, .exit nm ((t1 - t0) * 1000)])
    ∧ (f thisV args = .ret .undefinedV →
        (wrapper f nm t0 t1 thisV args).1
          = [.entry nm, .scopeCapture nm "entry" (argScope args),
             .exit nm ((t1 - t0) * 1000)])
    ∧ (∀ e s, f thisV args = .thr e → e.toStringOpt = some s →
        (wrapper f nm t0 t1 thisV args).1
          = [.entry nm, .scopeCapture nm "entry" (argScope args),
             .varCapture "error" (.str s), .exit nm ((t1 - t0) * 1000)]) := by
  refine ⟨?_, ?_, ?_, ?_⟩
  · unfold wrapper
    cases f thisV args with
    | ret v => by_cases hv : v = .undefinedV <;> simp [hv]
    | thr e => cases hs : e.toStringOpt <;> simp [hs]
  · intro v hv hne
    simp [wrapper, hv, hne]
  · intro hv
    simp [wrapper, hv]
  · intro e s he hs
    simp [wrapper, he, hs]

/-- Witness for C3 (amended) at a concrete call: wrapping a function
returning 5 on argument 7 captures `arg0 = 7` at entry and
`return = 5` before the exit op. -/
theorem wrapper_captures_witness :
    (wrapper retFive "m" 0 2 .undefinedV [.num 7]).1
      = [.entry "m", .scopeCapture "m" "entry" [("arg0", .num 7)],
         .varCapture "return" (.num 5), .exit "m" ((2 - 0) * 1000)] :=
  (wrapper_captures retFive "m" 0 2 .undefinedV [.num 7]).2.1 (.num 5) rfl
    (by decide)

/-- C9: `captureFunction` rejects a non-function first argument with the
exact error message and no emitted event, and for a function argument it
returns the wrapper (resolved name plus the wrapped function) without
emitting any event and without invoking the function. -/
theorem captureFunction_guard :
    (∀ (v : JSValue) (nm : Option String),
      captureFunction (.nonFunc v) nm
        = ([], .error "First argument must be a function"))
    ∧ (∀ (f : GuestFn) (fname : String) (nm : Option String),
      captureFunction (.func f fname) nm
        = ([], .ok (resolveName nm fname, f))) :=
  ⟨fun _ _ => rfl, fun _ _ _ => rfl⟩

/-- C10 counterexample: a wrapped function that throws `null` emits the
entry event but no exit event — `e.toString()` in the catch block itself
throws a TypeError that escapes the wrapper before `functionExit`. -/
theorem wrapper_throw_null_unbalanced :
    (wrapper throwNull "g" 0 0 .undefinedV []).1
        = [.entry "g", .scopeCapture "g" "entry" []]
    ∧ (wrapper throwNull "g" 0 0 .undefinedV []).2 = .hostTypeError
    ∧ countEntries (wrapper throwNull "g" 0 0 .undefinedV []).1 = 1
    ∧ countExits (wrapper throwNull "g" 0 0 .undefinedV []).1 = 0 :=
  ⟨rfl, rfl, rfl, rfl⟩

/-- C10 (amended): whenever the wrapped function returns, or throws a
value whose `toString` succeeds (any value other than `null` and
`undefined`), the wrapper emits exactly one entry and exactly one exit
event, the entry first and the exit (with the duration) last, for the
same function name. -/
theorem wrapper_balanced (f : GuestFn) (nm : String) (t0 t1 : Int)
    (thisV : JSValue) (args : List JSValue)
    (h : ∀ e, f thisV args = .thr e → (JSValue.toStringOpt e).isSome) :
    countEntries (wrapper f nm t0 t1 thisV args).1 = 1
    ∧ countExits (wrapper f nm t0 t1 thisV args).1 = 1
    ∧ (wrapper f nm t0 t1 thisV args).1.head? = some (.entry nm)
    ∧ (wrapper f nm t0 t1 thisV args).1.getLast?
        = some (.exit nm ((t1 - t0) * 1000)) := by
  unfold wrapper
  cases hout : f thisV args with
  | ret v =>
      by_cases hv : v = .undefinedV <;>
        simp [hv, countEntries, countExits, List.countP_cons]
  | thr e =>
      have hts := h e hout
      cases hs : e.toStringOpt with
      | none => rw [hs] at hts; simp at hts
      | some s => simp [hs, countEntries, countExits, List.countP_cons]

/-- Witness for C10 (amended) at a concrete call of a returning
function. -/
theorem wrapper_balanced_witness :
    countEntries (wrapper retFive "m" 0 2 .undefinedV []).1 = 1
    ∧ countExits (wrapper retFive "m" 0 2 .undefinedV []).1 = 1
    ∧ (wrapper retFive "m" 0 2 .undefinedV []).1.head? = some (.entry "m")
    ∧ (wrapper retFive "m" 0 2 .undefinedV []).1.getLast?
        = some (.exit "m" ((2 - 0) * 1000)) :=
  wrapper_balanced retFive "m" 0 2 .undefinedV [] (fun e he => by
    simp [retFive] at he)

/-! ## Theorems: timeline store (C4, C5) -/

/-- `append` returns the current value of the session id counter. -/
theorem Timeline.append_id (t : Timeline) (d : SnapshotData) :
    (t.append d).2 = t.nextId := by
  unfold Timeline.append
  split <;> rfl

/-- `append` advances the session id counter by one. -/
theorem Timeline.append_nextId (t : Timeline) (d : SnapshotData) :
    (t.append d).1.nextId = t.nextId + 1 := by
  unfold Timeline.append
  split <;> rfl

/-- `append` never changes the capacity bound. -/
theorem Timeline.append_capacity (t : Timeline) (d : SnapshotData) :
    (t.append d).1.capacity = t.capacity := by
  unfold Timeline.append
  split <;> rfl

/-- `append` keeps the length within the capacity bound. -/
theorem Timeline.append_length_le (t : Timeline) (d : SnapshotData)
    (h : t.snapshots.length ≤ t.capacity) :
    (t.append d).1.snapshots.length ≤ t.capacity := by
  unfold Timeline.append
  split
  next hgt =>
    simp only [List.length_tail, List.length_append, List.length_cons,
      List.length_nil]
    omega
  next hle =>
    simp only [List.length_append, List.length_cons, List.length_nil,
      Nat.not_lt] at hle ⊢
    omega

/-- Within capacity `append` extends the sequence by the new snapshot;
past capacity it additionally evicts from the oldest end — uniformly,
the result is the extended sequence with the overflow dropped in front. -/
theorem Timeline.append_snapshots (t : Timeline) (d : SnapshotData)
    (h : t.snapshots.length ≤ t.capacity) :
    (t.append d).1.snapshots
      = (t.snapshots ++ [mkSnapshot t.nextId d]).drop
          (t.snapshots.length + 1 - t.capacity) := by
  unfold Timeline.append
  split
  next hgt =>
    simp only [List.length_append, List.length_cons, List.length_nil] at hgt
    have hlen : t.snapshots.length + 1 - t.capacity = 1 := by omega
    rw [hlen, ← List.drop_one]
  next hle =>
    simp only [List.length_append, List.length_cons, List.length_nil,
      Nat.not_lt] at hle
    have hlen : t.snapshots.length + 1 - t.capacity = 0 := by omega
    rw [hlen, List.drop_zero]

/-- The snapshots a sequence of appends creates, with their assigned
ids, before eviction. -/
def newSnaps (n : Nat) : List SnapshotData → List Snapshot
  | [] => []
  | d :: ds => mkSnapshot n d :: newSnaps (n + 1) ds

/-- `newSnaps` has one snapshot per datum. -/
theorem newSnaps_length (n : Nat) (ds : List SnapshotData) :
    (newSnaps n ds).length = ds.length := by
  induction ds generalizing n with
  | nil => rfl
  | cons d rest ih => simp [newSnaps, ih]

/-- The ids of `newSnaps` are consecutive from `n`. -/
theorem newSnaps_ids (n : Nat) (ds : List SnapshotData) :
    (newSnaps n ds).map Snapshot.id = List.range' n ds.length := by
  induction ds generalizing n with
  | nil => rfl
  | cons d rest ih =>
      simp [newSnaps, ih, List.range'_succ, mkSnapshot]

/-- The ids returned by a sequence of appends are the consecutive
counter values. -/
theorem Timeline.appendAll_ids (ds : List SnapshotData) (t : Timeline) :
    (t.appendAll ds).2 = List.range' t.nextId ds.length := by
  induction ds generalizing t with
  | nil => rfl
  | cons d rest ih =>
      show (t.append d).2 :: ((t.append d).1.appendAll rest).2 = _
      rw [ih, Timeline.append_nextId, Timeline.append_id, List.length_cons,
        List.range'_succ]

/-- A sequence of appends advances the counter by the number of
appends. -/
theorem Timeline.appendAll_nextId (ds : List SnapshotData) (t : Timeline) :
    (t.appendAll ds).1.nextId = t.nextId + ds.length := by
  induction ds generalizing t with
  | nil => rfl
  | cons d rest ih =>
      show ((t.append d).1.appendAll rest).1.nextId = _
      rw [ih, Timeline.append_nextId, List.length_cons]
      omega

/-- Appends never change the capacity bound. -/
theorem Timeline.appendAll_capacity (ds : List SnapshotData) (t : Timeline) :
    (t.appendAll ds).1.capacity = t.capacity := by
  induction ds generalizing t with
  | nil => rfl
  | cons d rest ih =>
      show ((t.append d).1.appendAll rest).1.capacity = _
      rw [ih, Timeline.append_capacity]

/-- Characterization of a sequence of appends: the surviving snapshots
are the old ones followed by the new ones, with the capacity overflow
evicted from the oldest end. -/
theorem Timeline.appendAll_snapshots (ds : List SnapshotData) (t : Timeline)
    (h : t.snapshots.length ≤ t.capacity) :
    (t.appendAll ds).1.snapshots
      = (t.snapshots ++ newSnaps t.nextId ds).drop
          (t.snapshots.length + ds.length - t.capacity) := by
  induction ds generalizing t with
  | nil =>
      show t.snapshots = _
      simp [newSnaps, Nat.sub_eq_zero_of_le h]
  | cons d rest ih =>
      have hsnap := t.append_snapshots d h
      have hlen1 : (t.append d).1.snapshots.length ≤ t.capacity :=
        t.append_length_le d h
      have ihx := ih (t.append d).1
        (by rw [Timeline.append_capacity]; exact hlen1)
      show ((t.append d).1.appendAll rest).1.snapshots = _
      rw [ihx, Timeline.append_capacity, Timeline.append_nextId, hsnap,
        List.length_drop]
      rw [← List.drop_append_of_le_length
        (by simp only [List.length_append, List.length_cons,
              List.length_nil]
            omega),
        List.drop_drop]
      have hlist : (t.snapshots ++ [mkSnapshot t.nextId d])
            ++ newSnaps (t.nextId + 1) rest
          = t.snapshots ++ newSnaps t.nextId (d :: rest) := by
        simp [newSnaps]
      rw [hlist]
      congr 1
      simp only [List.length_append, List.length_cons, List.length_nil]
      omega

/-- C4: for any sequence of `append` calls on any timeline, the
returned `SnapshotId`s are strictly increasing, regardless of eviction;
in particular no evicted id is ever reassigned. -/
theorem append_ids_strictly_increasing (t : Timeline)
    (ds : List SnapshotData) :
    List.Pairwise (· < ·) (t.appendAll ds).2 := by
  rw [Timeline.appendAll_ids]
  exact List.pairwise_lt_range' _ _

/-- On a fresh timeline of capacity `N`, the surviving snapshots after a
sequence of appends are the newest ones, the overflow evicted. -/
theorem fresh_appendAll_snapshots (N : Nat) (ds : List SnapshotData) :
    ((Timeline.new N).appendAll ds).1.snapshots
      = (newSnaps 0 ds).drop (ds.length - N) := by
  have h := Timeline.appendAll_snapshots ds (Timeline.new N)
    (by simp [Timeline.new])
  simpa [Timeline.new] using h

/-- The ids surviving on a fresh timeline of capacity `N` after `N + k`
appends are exactly `k, …, N + k - 1`. -/
theorem fresh_final_ids (N k : Nat) (ds : List SnapshotData)
    (hlen : ds.length = N + k) :
    (((Timeline.new N).appendAll ds).1.snapshots).map Snapshot.id
      = List.range' k N := by
  rw [fresh_appendAll_snapshots, List.map_drop, newSnaps_ids, hlen]
  have hd : N + k - N = k := by omega
  rw [hd]
  have hsplit : List.range' 0 k ++ List.range' (0 + 1 * k) N
      = List.range' 0 (N + k) := List.range'_append 0 k N 1
  have hklen : (List.range' 0 k).length = k := by simp
  rw [← hsplit, List.drop_left' hklen]
  simp

/-- C5: with capacity `N`, after `N + k` appends (`k > 0`) the timeline
holds exactly `N` snapshots, `get` on any of the first `k` (evicted)
ids fails with `NotFound`, and the monotonic counter has issued `N + k`
ids. -/
theorem bounded_capacity (N k : Nat) (ds : List SnapshotData)
    (hk : 0 < k) (hlen : ds.length = N + k) :
    ((Timeline.new N).appendAll ds).1.snapshots.length = N
    ∧ (∀ i, i < k →
        ((Timeline.new N).appendAll ds).1.get i = .error .NotFound)
    ∧ ((Timeline.new N).appendAll ds).1.nextId = N + k := by
  refine ⟨?_, ?_, ?_⟩
  · rw [fresh_appendAll_snapshots, List.length_drop, newSnaps_length, hlen]
    omega
  · intro i hi
    have hnone : ((Timeline.new N).appendAll ds).1.snapshots.find?
        (fun s => s.id == i) = none := by
      rw [List.find?_eq_none]
      intro s hs
      have hid : s.id ∈ (((Timeline.new N).appendAll ds).1.snapshots).map
          Snapshot.id := List.mem_map_of_mem _ hs
      rw [fresh_final_ids N k ds hlen] at hid
      have hrange := List.mem_range'_1.1 hid
      simp only [beq_iff_eq]
      omega
    simp [Timeline.get, hnone]
  · rw [Timeline.appendAll_nextId, hlen]
    simp [Timeline.new]

/-- One inert snapshot datum, for concrete timeline scenarios. -/
def dData : SnapshotData :=
  ⟨0, .variableCapture, "f", 0, [], none⟩

/-- Witness for C5 at the spec's own scenario: 5 appends with capacity
3 leave 3 snapshots, id 0 evicted, counter at 5. -/
theorem bounded_capacity_witness :
    ((Timeline.new 3).appendAll (List.replicate 5 dData)).1.snapshots.length
        = 3
    ∧ ((Timeline.new 3).appendAll (List.replicate 5 dData)).1.get 0
        = .error .NotFound
    ∧ ((Timeline.new 3).appendAll (List.replicate 5 dData)).1.nextId = 5 :=
  ⟨(bounded_capacity 3 2 _ (by decide) (by simp)).1,
   (bounded_capacity 3 2 _ (by decide) (by simp)).2.1 0 (by decide),
   (bounded_capacity 3 2 _ (by decide) (by simp)).2.2⟩

/-! ## Theorems: navigator (C6) -/

/-- C6: from any interior cursor position of a non-empty timeline,
`step_forward()` followed by `step_backward()` returns the cursor to the
original index, and thus to the original snapshot id. -/
theorem navigator_round_trip (t : Timeline) (c : Nat)
    (hc : t.cursor = some c) (h0 : 0 < c)
    (hl : c + 1 < t.snapshots.length) :
    ∃ t2, t.stepRoundTrip = .ok t2
      ∧ t2.cursor = some c ∧ t2.cursorId = t.cursorId := by
  refine ⟨⟨t.snapshots, t.capacity, t.nextId, some c⟩, ?_, rfl, ?_⟩
  · unfold Timeline.stepRoundTrip Timeline.stepForward Timeline.stepBackward
    rw [hc]
    simp [hl]
  · simp [Timeline.cursorId, hc]

/-- A concrete three-snapshot timeline with the cursor at the interior
position 1. -/
def navTimeline : Timeline :=
  ⟨[mkSnapshot 0 dData, mkSnapshot 1 dData, mkSnapshot 2 dData], 10, 3,
   some 1⟩

/-- Witness for C6 on the concrete interior position. -/
theorem navigator_round_trip_witness :
    ∃ t2, navTimeline.stepRoundTrip = .ok t2
      ∧ t2.cursor = some 1 ∧ t2.cursorId = navTimeline.cursorId :=
  navigator_round_trip navTimeline 1 rfl (by decide) (by decide)

/-! ## Theorems: cycle stability (C7) -/

/-- The guest heap containing a single self-referencing object
`obj.ref = obj` (at address 7). -/
def selfHeap : Heap :=
  ⟨[(7, [("ref", GRef.ptr 7)])]⟩

/-- C7: for the single-self-reference value graph `obj.ref = obj`,
serialization terminates with a proper object (not a depth marker),
produces exactly one `CircularRef`, that reference resolves to the
root's per-pass reference id, and restoration reconstructs an object
whose `ref` field is a pointer to the object itself. -/
theorem circular_self_reference :
    serialize selfHeap (.ptr 7) 10 = .object [("ref", .circularRef 0)]
    ∧ countCircular (serialize selfHeap (.ptr 7) 10) = 1
    ∧ (serializeS selfHeap 10 [] (.ptr 7)).2.lookup 7 = some 0
    ∧ restore (serialize selfHeap (.ptr 7) 10)
        = (GRef.ptr 0, ⟨[(0, [("ref", GRef.ptr 0)])]⟩) :=
  ⟨rfl, rfl, rfl, rfl⟩

/-! ## Theorems: snapshot-info projection (C8) -/

/-- C8: the snapshot-info output is the statistics record with exactly
the fields `total_snapshots`, `function_calls`, `current_function` and
`call_depth`, plus a list of recent snapshot summaries; every summary
carries exactly `id`, `function`, `kind` and `variable_count`, each
taken from a snapshot actually stored in the timeline. -/
theorem snapshot_info_shape (t : Timeline) (recent : Nat) :
    (getSnapshotInfo t recent).total_snapshots = t.snapshots.length
    ∧ (getSnapshotInfo t recent).function_calls
        = t.snapshots.countP (fun s => s.kind == SnapshotKind.functionEntry)
    ∧ (getSnapshotInfo t recent).current_function
        = (t.cursor.bind (fun c => t.snapshots.get? c)).map
            Snapshot.functionName
    ∧ (getSnapshotInfo t recent).call_depth
        = (t.snapshots.getLast?.map Snapshot.callDepth).getD 0
    ∧ (∀ summ ∈ (getSnapshotInfo t recent).snapshots,
        ∃ s ∈ t.snapshots,
          summ = ⟨s.id, s.functionName, s.kind, s.vars.length⟩) := by
  refine ⟨rfl, rfl, rfl, rfl, ?_⟩
  intro summ hsumm
  simp only [getSnapshotInfo, List.mem_map] at hsumm
  obtain ⟨s, hs, hsum⟩ := hsumm
  exact ⟨s, List.mem_of_mem_drop hs, hsum.symm ▸ rfl⟩

/-- Witness for C8 on a concrete one-snapshot timeline. -/
theorem snapshot_info_shape_witness :
    (getSnapshotInfo ⟨[mkSnapshot 0 dData], 10, 1, some 0⟩ 5).total_snapshots
        = 1
    ∧ ∀ summ ∈ (getSnapshotInfo ⟨[mkSnapshot 0 dData], 10, 1, some 0⟩
        5).snapshots,
        ∃ s ∈ ([mkSnapshot 0 dData] : List Snapshot),
          summ = ⟨s.id, s.functionName, s.kind, s.vars.length⟩ :=
  ⟨(snapshot_info_shape ⟨[mkSnapshot 0 dData], 10, 1, some 0⟩ 5).1,
   (snapshot_info_shape ⟨[mkSnapshot 0 dData], 10, 1, some 0⟩ 5).2.2.2.2⟩
